import Mathlib

/-!
Verification of the fleet-composition calculator (`src/Petrobras-PreCal.py`).

The core logic of the program is: a static route table `ROUTE_INFO`
(per-route display name and capacity divisor), a year/route-dependent
fixed-vessel lookup `get_fixed_vessels`, and the per-route calculation of
the "Calculate All Routes" button handler
(`total_vessels = math.ceil(volume / divisor)`,
`charter_needed = max(0, total_vessels - new_builds - existing)`).
Volumes and divisors are embedded as rationals, years and vessel counts
as integers.
-/

namespace FleetComposition

/-- One entry of `ROUTE_INFO` (src lines 12-19): display name and divisor. -/
structure RouteInfo where
  display_name : String
  divisor : ℚ
deriving Repr, DecidableEq

/-- The `ROUTE_INFO` dict (src lines 12-19), in insertion order
(which is also `ROUTE_KEYS_ORDERED`, src line 20). -/
def ROUTE_INFO : List (String × RouteInfo) :=
  [ ("vlcc_china",   ⟨"Brazil to China (Crude Oil)", 9.95⟩),
    ("suez_seasia",  ⟨"Brazil to SE Asia (Oil Product)", 6.42⟩),
    ("suez_sing",    ⟨"Brazil to Singapore (Crude Oil)", 6.42⟩),
    ("afra_europe",  ⟨"Brazil to Europe (Crude Oil)", 6.42⟩),
    ("pana_houston", ⟨"Brazil to Houston (Crude Oil)", 5.13⟩),
    ("mr_ny",        ⟨"Brazil to New York (Oil Product)", 3.69⟩) ]

/-- Dict indexing `ROUTE_INFO[route_key]`: `some` when the key is
registered, `none` (a Python `KeyError`) otherwise. -/
def lookupRoute (route_key : String) : Option RouteInfo :=
  ROUTE_INFO.lookup route_key

/-- `get_fixed_vessels(route_key, year)` (src lines 34-55): the
sequential if/elif chain, starting from `new_builds = 0; existing = 0`
and returning the pair `(new_builds, existing)`. -/
def get_fixed_vessels (route_key : String) (year : ℤ) : ℤ × ℤ :=
  if route_key = "vlcc_china" then
    if year = 2030 then (18, 0)
    else if year ≥ 2040 then (0, 18)
    else (0, 0)
  else if route_key = "suez_sing" then
    if year = 2030 then (10, 10)
    else if year = 2040 then (0, 10)
    else if year = 2050 then (0, 17)
    else (0, 0)
  else if route_key = "suez_seasia" then
    if year = 2030 then (9, 0)
    else if year = 2040 then (0, 9)
    else if year = 2050 then (0, 12)
    else (0, 0)
  else if route_key = "afra_europe" then
    if year = 2030 ∨ year = 2040 then (0, 5)
    else (0, 0)
  else if route_key = "pana_houston" then
    if year = 2030 then (0, 1)
    else (0, 0)
  else if route_key = "mr_ny" then
    if year = 2030 then (0, 4)
    else (0, 0)
  else (0, 0)

/-- The per-route entry of `results_dict` (src lines 125-132). -/
structure CalculationResult where
  route_display_name : String
  export_volume : ℚ
  total_vessels : ℤ
  new_builds_needed : ℤ
  existing_vessels : ℤ
  charter_vessels_needed : ℤ
deriving Repr, DecidableEq

/-- The body of the calculation loop (src lines 118-132) for one route:
`total_vessels = math.ceil(volume / divisor)`,
`charter_needed = max(0, total_vessels - new_builds_needed - existing_vessels)`. -/
def computeRoute (route_key : String) (info : RouteInfo) (year : ℤ)
    (volume : ℚ) : CalculationResult :=
  let divisor := info.divisor
  let fixed := get_fixed_vessels route_key year
  let total_vessels : ℤ := ⌈volume / divisor⌉
  let new_builds_needed := fixed.1
  let existing_vessels := fixed.2
  let charter_needed := max 0 (total_vessels - new_builds_needed - existing_vessels)
  { route_display_name := info.display_name
    export_volume := volume
    total_vessels := total_vessels
    new_builds_needed := new_builds_needed
    existing_vessels := existing_vessels
    charter_vessels_needed := charter_needed }

/-- Error taxonomy of the calculator: nonpositive volume (the
`all_volumes_valid` check, src lines 108-112) and unregistered route key
(dict indexing `ROUTE_INFO[route_key]` raising `KeyError`). -/
inductive CalcError where
  | invalidVolume
  | unknownRoute
deriving Repr, DecidableEq

/-- The single-route operation `calculate(route_key, year, export_volume)`:
the volume-positivity check (src line 110) runs first; then the route
lookup; then the loop body (src lines 118-132). -/
def calculate (route_key : String) (year : ℤ) (export_volume : ℚ) :
    Except CalcError CalculationResult :=
  if export_volume ≤ 0 then .error .invalidVolume
  else
    match lookupRoute route_key with
    | none => .error .unknownRoute
    | some info => .ok (computeRoute route_key info year export_volume)

/-- The "Calculate All Routes" button handler (src lines 107-138): scan
the routes in order and stop at the first one whose volume is `<= 0`
(the `break` on src line 112), reporting that route; only when every
volume is positive compute `results_dict` for all routes. -/
def calculateAllRoutes (year : ℤ) (volumes : String → ℚ) :
    Except String (List (String × CalculationResult)) :=
  match ROUTE_INFO.find? (fun p => decide (volumes p.1 ≤ 0)) with
  | some p => .error p.1
  | none =>
      .ok (ROUTE_INFO.map (fun p => (p.1, computeRoute p.1 p.2 year (volumes p.1))))

/-- A per-route volume assignment giving route "vlcc_china" volume 0 and
every other route volume 1 (used to exercise the batch validation). -/
def zeroVlccVolumes : String → ℚ :=
  fun key => if key = "vlcc_china" then 0 else 1

/-! ### Helper lemmas -/

/-- Membership in the route table determines the result of dict indexing. -/
theorem lookup_of_mem {key : String} {info : RouteInfo}
    (h : (key, info) ∈ ROUTE_INFO) : lookupRoute key = some info := by
  simp only [ROUTE_INFO, List.mem_cons, List.not_mem_nil, or_false,
    Prod.mk.injEq] at h
  rcases h with ⟨rfl, rfl⟩ | ⟨rfl, rfl⟩ | ⟨rfl, rfl⟩ | ⟨rfl, rfl⟩ |
    ⟨rfl, rfl⟩ | ⟨rfl, rfl⟩ <;> rfl

/-- Every registered route has a positive divisor. -/
theorem divisor_pos {key : String} {info : RouteInfo}
    (h : (key, info) ∈ ROUTE_INFO) : 0 < info.divisor := by
  simp only [ROUTE_INFO, List.mem_cons, List.not_mem_nil, or_false,
    Prod.mk.injEq] at h
  rcases h with ⟨-, rfl⟩ | ⟨-, rfl⟩ | ⟨-, rfl⟩ | ⟨-, rfl⟩ |
    ⟨-, rfl⟩ | ⟨-, rfl⟩ <;> norm_num

/-- With a positive volume and a registered route, `calculate` succeeds
with the loop body's result. -/
theorem calculate_ok {key : String} {info : RouteInfo} (year : ℤ) {v : ℚ}
    (hmem : (key, info) ∈ ROUTE_INFO) (hv : 0 < v) :
    calculate key year v = .ok (computeRoute key info year v) := by
  rw [calculate, if_neg (not_le.mpr hv), lookup_of_mem hmem]

/-! ### Claim theorems -/

/-- C1: for every registered route with divisor `d`, every export volume
`v > 0` and every year, the calculation succeeds and returns
`total_vessels = ⌈v / d⌉`. -/
theorem calc_total_vessels_eq_ceil (key : String) (info : RouteInfo)
    (year : ℤ) (v : ℚ) (hmem : (key, info) ∈ ROUTE_INFO) (hv : 0 < v) :
    ∃ r, calculate key year v = .ok r ∧ r.total_vessels = ⌈v / info.divisor⌉ :=
  ⟨computeRoute key info year v, calculate_ok year hmem hv, rfl⟩

/-- C1 witness: route "vlcc_china", year 2030, volume 1. -/
theorem calc_total_vessels_eq_ceil_witness :
    ∃ r, calculate "vlcc_china" 2030 1 = .ok r ∧
      r.total_vessels = ⌈(1 : ℚ) / (9.95 : ℚ)⌉ :=
  calc_total_vessels_eq_ceil "vlcc_china" ⟨"Brazil to China (Crude Oil)", 9.95⟩
    2030 1 (by simp [ROUTE_INFO]) zero_lt_one

/-- C2: for every registered route, year and volume `v > 0`, the result
satisfies: when `new_builds_needed + existing_vessels ≤ total_vessels`,
`total_vessels = new_builds_needed + existing_vessels +
charter_vessels_needed`; otherwise `charter_vessels_needed = 0`. -/
theorem calc_charter_invariant (key : String) (info : RouteInfo)
    (year : ℤ) (v : ℚ) (hmem : (key, info) ∈ ROUTE_INFO) (hv : 0 < v) :
    ∃ r, calculate key year v = .ok r ∧
      (r.new_builds_needed + r.existing_vessels ≤ r.total_vessels →
        r.total_vessels =
          r.new_builds_needed + r.existing_vessels + r.charter_vessels_needed) ∧
      (r.total_vessels < r.new_builds_needed + r.existing_vessels →
        r.charter_vessels_needed = 0) := by
  refine ⟨computeRoute key info year v, calculate_ok year hmem hv, ?_, ?_⟩ <;>
    simp only [computeRoute] <;> intro h
  · rw [max_eq_right (by linarith)]
    ring
  · rw [max_eq_left (by linarith)]

/-- C2 witness: route "vlcc_china", year 2030, volume 1. -/
theorem calc_charter_invariant_witness :
    ∃ r, calculate "vlcc_china" 2030 1 = .ok r ∧
      (r.new_builds_needed + r.existing_vessels ≤ r.total_vessels →
        r.total_vessels =
          r.new_builds_needed + r.existing_vessels + r.charter_vessels_needed) ∧
      (r.total_vessels < r.new_builds_needed + r.existing_vessels →
        r.charter_vessels_needed = 0) :=
  calc_charter_invariant "vlcc_china" ⟨"Brazil to China (Crude Oil)", 9.95⟩
    2030 1 (by simp [ROUTE_INFO]) zero_lt_one

/-- C6: for every registered route and every year, `calculate` signals
`InvalidVolumeError` when `export_volume ≤ 0`; no result is computed. -/
theorem calc_invalid_volume (key : String) (info : RouteInfo)
    (year : ℤ) (v : ℚ) (hmem : (key, info) ∈ ROUTE_INFO) (hv : v ≤ 0) :
    calculate key year v = .error .invalidVolume := by
  rw [calculate, if_pos hv]

/-- C6 witness: route "vlcc_china", year 2030, volume 0. -/
theorem calc_invalid_volume_witness :
    calculate "vlcc_china" 2030 0 = .error .invalidVolume :=
  calc_invalid_volume "vlcc_china" ⟨"Brazil to China (Crude Oil)", 9.95⟩
    2030 0 (by simp [ROUTE_INFO]) le_rfl

/-- C9: for every registered route, year and volume `v > 0`, the computed
`total_vessels` is at least 1. -/
theorem calc_total_vessels_ge_one (key : String) (info : RouteInfo)
    (year : ℤ) (v : ℚ) (hmem : (key, info) ∈ ROUTE_INFO) (hv : 0 < v) :
    ∃ r, calculate key year v = .ok r ∧ 1 ≤ r.total_vessels := by
  refine ⟨computeRoute key info year v, calculate_ok year hmem hv, ?_⟩
  have hd : 0 < info.divisor := divisor_pos hmem
  exact Int.ceil_pos.mpr (div_pos hv hd)

/-- C9 witness: route "mr_ny", year 2050, volume 1. -/
theorem calc_total_vessels_ge_one_witness :
    ∃ r, calculate "mr_ny" 2050 1 = .ok r ∧ 1 ≤ r.total_vessels :=
  calc_total_vessels_ge_one "mr_ny" ⟨"Brazil to New York (Oil Product)", 3.69⟩
    2050 1 (by simp [ROUTE_INFO]) zero_lt_one

/-- C10: `get_fixed_vessels` is total; on every route key (registered or
not) and every year it returns non-negative components, each at most 18. -/
theorem get_fixed_vessels_bounds (key : String) (year : ℤ) :
    0 ≤ (get_fixed_vessels key year).1 ∧ (get_fixed_vessels key year).1 ≤ 18 ∧
    0 ≤ (get_fixed_vessels key year).2 ∧ (get_fixed_vessels key year).2 ≤ 18 := by
  unfold get_fixed_vessels
  split_ifs <;> decide

/-- Claim C7: route "vlcc_china", volume 289.4: at year 2030 the result is
(total 30, new builds 18, existing 0, charter 12); at year 2040 it is
(total 30, new builds 0, existing 18, charter 12). -/
theorem vlcc_china_scenarios :
    calculate "vlcc_china" 2030 289.4 =
      .ok ⟨"Brazil to China (Crude Oil)", 289.4, 30, 18, 0, 12⟩ ∧
    calculate "vlcc_china" 2040 289.4 =
      .ok ⟨"Brazil to China (Crude Oil)", 289.4, 30, 0, 18, 12⟩ := by
  have hv : (0 : ℚ) < 289.4 := by norm_num
  have hm : ("vlcc_china",
      (⟨"Brazil to China (Crude Oil)", 9.95⟩ : RouteInfo)) ∈ ROUTE_INFO := by
    simp [ROUTE_INFO]
  have hc : (⌈(289.4 : ℚ) / 9.95⌉ : ℤ) = 30 := by
    rw [Int.ceil_eq_iff]
    constructor <;> norm_num
  rw [calculate_ok 2030 hm hv, calculate_ok 2040 hm hv]
  constructor <;>
    simp [computeRoute, get_fixed_vessels, hc, CalculationResult.mk.injEq]

/-- Claim C8: for every registered route with divisor `d`, a positive
volume `v` exactly divisible by `d` (`v = n * d` for an integer `n`)
yields `total_vessels = n`, with no upward rounding artifact. -/
theorem calc_exact_division (key : String) (info : RouteInfo) (year : ℤ)
    (v : ℚ) (n : ℤ) (hmem : (key, info) ∈ ROUTE_INFO) (hv : 0 < v)
    (hdiv : v = (n : ℚ) * info.divisor) :
    ∃ r, calculate key year v = .ok r ∧ r.total_vessels = n := by
  refine ⟨computeRoute key info year v, calculate_ok year hmem hv, ?_⟩
  have hd : info.divisor ≠ 0 := ne_of_gt (divisor_pos hmem)
  show (⌈v / info.divisor⌉ : ℤ) = n
  rw [hdiv, mul_div_assoc, div_self hd, mul_one, Int.ceil_intCast]

/-- C8 witness: divisor 9.95 with volume 99.5 = 10 × 9.95 yields
`total_vessels = 10`, not 11. -/
theorem calc_exact_division_witness :
    ((99.5 : ℚ) = ((10 : ℤ) : ℚ) * (9.95 : ℚ)) ∧
    ∃ r, calculate "vlcc_china" 2030 99.5 = .ok r ∧ r.total_vessels = 10 :=
  ⟨by norm_num,
    calc_exact_division "vlcc_china" ⟨"Brazil to China (Crude Oil)", 9.95⟩
      2030 99.5 10 (by simp [ROUTE_INFO]) (by norm_num) (by norm_num)⟩

/-- Claim C4 counterexample: year 2041 is outside {2030, 2040, 2050}, yet
for the registered route "vlcc_china" the lookup returns (0, 18), not
(0, 0). -/
theorem fixed_vessels_unknown_year_counterexample :
    (2041 : ℤ) ≠ 2030 ∧ (2041 : ℤ) ≠ 2040 ∧ (2041 : ℤ) ≠ 2050 ∧
    ("vlcc_china",
      (⟨"Brazil to China (Crude Oil)", 9.95⟩ : RouteInfo)) ∈ ROUTE_INFO ∧
    get_fixed_vessels "vlcc_china" 2041 = (0, 18) := by
  refine ⟨by decide, by decide, by decide, by simp [ROUTE_INFO], by decide⟩

/-- Claim C4 (amended): for every registered route and every year outside
{2030, 2040, 2050}, `get_fixed_vessels` returns (0, 0) — except for route
"vlcc_china", where every year ≥ 2040 returns (0, 18). -/
theorem fixed_vessels_unknown_year (key : String) (info : RouteInfo)
    (year : ℤ) (hmem : (key, info) ∈ ROUTE_INFO)
    (h30 : year ≠ 2030) (h40 : year ≠ 2040) (h50 : year ≠ 2050) :
    get_fixed_vessels key year =
      if key = "vlcc_china" ∧ 2040 ≤ year then (0, 18) else (0, 0) := by
  simp only [ROUTE_INFO, List.mem_cons, List.not_mem_nil, or_false,
    Prod.mk.injEq] at hmem
  rcases hmem with ⟨rfl, -⟩ | ⟨rfl, -⟩ | ⟨rfl, -⟩ | ⟨rfl, -⟩ |
    ⟨rfl, -⟩ | ⟨rfl, -⟩ <;>
    simp only [get_fixed_vessels] <;> split_ifs <;> simp_all

/-- C4 witness: route "suez_sing" at year 2041 degrades to (0, 0). -/
theorem fixed_vessels_unknown_year_witness :
    get_fixed_vessels "suez_sing" 2041 =
      if "suez_sing" = "vlcc_china" ∧ (2040 : ℤ) ≤ 2041 then (0, 18)
      else (0, 0) :=
  fixed_vessels_unknown_year "suez_sing"
    ⟨"Brazil to Singapore (Crude Oil)", 6.42⟩ 2041 (by simp [ROUTE_INFO])
    (by decide) (by decide) (by decide)

/-- Claim C5 counterexample: for the unregistered route key "petro_mars",
the fixed-vessel lookup does not fail: it returns the value (0, 0). -/
theorem unknown_route_counterexample :
    lookupRoute "petro_mars" = none ∧
    get_fixed_vessels "petro_mars" 2030 = (0, 0) := by
  exact ⟨rfl, by decide⟩

/-- Claim C5 (amended): for every unregistered route key and every year,
`get_fixed_vessels` returns (0, 0) rather than failing, while `calculate`
(given a positive volume) fails with `UnknownRouteError`. -/
theorem unknown_route_behavior (key : String) (year : ℤ) (v : ℚ)
    (hk : lookupRoute key = none) (hv : 0 < v) :
    get_fixed_vessels key year = (0, 0) ∧
    calculate key year v = .error .unknownRoute := by
  have h1 : key ≠ "vlcc_china" := by
    rintro rfl; simp [lookupRoute, ROUTE_INFO, List.lookup] at hk
  have h2 : key ≠ "suez_sing" := by
    rintro rfl; simp [lookupRoute, ROUTE_INFO, List.lookup] at hk
  have h3 : key ≠ "suez_seasia" := by
    rintro rfl; simp [lookupRoute, ROUTE_INFO, List.lookup] at hk
  have h4 : key ≠ "afra_europe" := by
    rintro rfl; simp [lookupRoute, ROUTE_INFO, List.lookup] at hk
  have h5 : key ≠ "pana_houston" := by
    rintro rfl; simp [lookupRoute, ROUTE_INFO, List.lookup] at hk
  have h6 : key ≠ "mr_ny" := by
    rintro rfl; simp [lookupRoute, ROUTE_INFO, List.lookup] at hk
  refine ⟨by simp [get_fixed_vessels, h1, h2, h3, h4, h5, h6], ?_⟩
  rw [calculate, if_neg (not_le.mpr hv), hk]

/-- C5 witness: the unregistered key "petro_mars" with year 2030 and
volume 1. -/
theorem unknown_route_behavior_witness :
    get_fixed_vessels "petro_mars" 2030 = (0, 0) ∧
    calculate "petro_mars" 2030 1 = .error .unknownRoute :=
  unknown_route_behavior "petro_mars" 2030 1 rfl zero_lt_one

/-- Claim C3 counterexample: with the volume assignment that gives
"vlcc_china" volume 0 and all other routes volume 1, the batch handler
aborts at the first invalid route and produces no result for any route,
even though e.g. "suez_sing" has a positive volume. -/
theorem batch_no_isolation_counterexample :
    calculateAllRoutes 2030 zeroVlccVolumes = .error "vlcc_china" ∧
    0 < zeroVlccVolumes "suez_sing" := by
  constructor
  · rfl
  · have hv : zeroVlccVolumes "suez_sing" = 1 := by
      simp only [zeroVlccVolumes,
        if_neg (by decide : ¬("suez_sing" = "vlcc_china"))]
    rw [hv]
    exact zero_lt_one

/-- Claim C3 (amended): the batch operation is all-or-nothing: when every
registered route's volume is positive, it succeeds and every route
receives its computed CalculationResult; when any registered route's
volume is ≤ 0, no route receives a result (the handler reports a failure
instead). -/
theorem batch_all_or_nothing (year : ℤ) (vols : String → ℚ) :
    ((∀ p ∈ ROUTE_INFO, 0 < vols p.1) →
      ∃ rs, calculateAllRoutes year vols = .ok rs ∧
        ∀ p ∈ ROUTE_INFO, (p.1, computeRoute p.1 p.2 year (vols p.1)) ∈ rs) ∧
    ((∃ p ∈ ROUTE_INFO, vols p.1 ≤ 0) →
      ∀ rs, calculateAllRoutes year vols ≠ .ok rs) := by
  constructor
  · intro h
    have hnone : ROUTE_INFO.find? (fun p => decide (vols p.1 ≤ 0)) = none := by
      rw [List.find?_eq_none]
      intro p hp
      simpa using (h p hp).not_le
    refine ⟨ROUTE_INFO.map (fun p => (p.1, computeRoute p.1 p.2 year (vols p.1))),
      ?_, ?_⟩
    · simp only [calculateAllRoutes, hnone]
    · intro p hp
      exact List.mem_map.mpr ⟨p, hp, rfl⟩
  · rintro ⟨p, hp, hle⟩ rs hok
    rcases hfind : ROUTE_INFO.find? (fun q => decide (vols q.1 ≤ 0)) with _ | q
    · rw [List.find?_eq_none] at hfind
      exact absurd hle (by simpa using hfind p hp)
    · simp only [calculateAllRoutes, hfind] at hok
      exact Except.noConfusion hok

/-- C3 witness: with every volume equal to 1, the batch succeeds and every
registered route receives its result. -/
theorem batch_all_or_nothing_witness :
    ∃ rs, calculateAllRoutes 2030 (fun _ => 1) = .ok rs ∧
      ∀ p ∈ ROUTE_INFO, (p.1, computeRoute p.1 p.2 2030 1) ∈ rs :=
  (batch_all_or_nothing 2030 (fun _ => 1)).1 (fun _ _ => zero_lt_one)

end FleetComposition
